import Mathlib

/-!
Verification of the zooshi entity-component core.

This file gives a shallow embedding of the parts of the zooshi repository
relevant to claims about component serialization, per-frame update, and the
two-pass world renderer:

- src/src/components/simple_movement.cpp (SimpleMovementComponent)
- src/src/components/services.h          (ServicesComponent)
- src/src/world_renderer.cpp             (WorldRenderer)

Floating-point values are modelled as exact rationals; the operations the
claims touch only copy, add, multiply and divide by 1000, so the rational
model reproduces the float computations exactly on the inputs used.
Null-pointer dereference (undefined behavior in the C++ source) is modelled
by an Option-valued result: none means the operation crashed.
-/

namespace Zooshi

/-- A 3-component vector (mathfu::vec3), with exact rational components. -/
structure Vec3 where
  x : ℚ
  y : ℚ
  z : ℚ
  deriving DecidableEq, Repr

/-- A 4-component vector (mathfu::vec4), with exact rational components. -/
structure Vec4 where
  x : ℚ
  y : ℚ
  z : ℚ
  w : ℚ
  deriving DecidableEq, Repr

def Vec3.zero : Vec3 := ⟨0, 0, 0⟩

/-- Componentwise vector addition (mathfu::vec3 operator+). -/
def Vec3.add (a b : Vec3) : Vec3 := ⟨a.x + b.x, a.y + b.y, a.z + b.z⟩

/-- Scalar multiplication (mathfu::vec3 operator* with a float). -/
def Vec3.scale (v : Vec3) (s : ℚ) : Vec3 := ⟨v.x * s, v.y * s, v.z * s⟩

/-- Scalar division (mathfu::vec3 operator/ with a float). -/
def Vec3.divScalar (v : Vec3) (s : ℚ) : Vec3 := ⟨v.x / s, v.y / s, v.z / s⟩

/-- SimpleMovementDef, the flatbuffer definition blob consumed and produced
by SimpleMovementComponent: it carries one Vec3 field, velocity. -/
structure SimpleMovementDef where
  velocity : Vec3
  deriving DecidableEq, Repr

/-- SimpleMovementData, the per-entity data record of SimpleMovementComponent
(components/simple_movement.h): one velocity vector. -/
structure SimpleMovementData where
  velocity : Vec3
  deriving DecidableEq, Repr

/-- TransformData, the per-entity record of the Transform component; only the
position field is touched by the code under verification. -/
structure TransformData where
  position : Vec3
  deriving DecidableEq, Repr

/-- The component data attached to one entity, restricted to the two
component kinds the claims mention.  A none field means the entity does not
hold that component kind. -/
structure Entity where
  simpleMovement : Option SimpleMovementData
  transform : Option TransformData
  deriving DecidableEq, Repr

/-- A fresh entity holds no component data at all. -/
def freshEntity : Entity := { simpleMovement := none, transform := none }

/-- Dependency invariant of claim C9: an entity holding SimpleMovement data
also holds Transform data. -/
def Entity.depInvariant (e : Entity) : Prop :=
  e.simpleMovement.isSome = true → e.transform.isSome = true

instance (e : Entity) : Decidable e.depInvariant := by
  unfold Entity.depInvariant; infer_instance

/-- Modelled from the spec: corgi EntityManager::AddEntityToComponent for the
Transform component (the corgi component library is an external collaborator;
spec section 4.1: attaching twice is a no-op).  Attaching creates a default
data record when the entity has none. -/
def TransformComponent.AddEntityToComponent (e : Entity) : Entity :=
  match e.transform with
  | some _ => e
  | none => { e with transform := some { position := Vec3.zero } }

namespace SimpleMovementComponent

/-- SimpleMovementComponent::InitEntity (simple_movement.cpp lines 60-64):
attaches the Transform component to the entity. -/
def InitEntity (e : Entity) : Entity :=
  TransformComponent.AddEntityToComponent e

/-- Modelled from the spec: corgi Component::AddEntity (external library
plumbing used by AddFromRawData); it creates this component data record for
the entity when absent and then runs InitEntity for the newly added entity,
per spec section 4.2 (dependency components are attached before the data is
considered valid); for an entity already holding the record it returns the
existing record unchanged. -/
def AddEntity (e : Entity) : Entity :=
  match e.simpleMovement with
  | some _ => e
  | none => InitEntity { e with simpleMovement := some { velocity := Vec3.zero } }

/-- SimpleMovementComponent::AddFromRawData (simple_movement.cpp lines
26-31): AddEntity, then store the velocity loaded from the definition blob
into the fresh record. -/
def AddFromRawData (e : Entity) (raw : SimpleMovementDef) : Entity :=
  let e1 := AddEntity e
  { e1 with simpleMovement := some { velocity := raw.velocity } }

/-- One iteration of the loop body of
SimpleMovementComponent::UpdateAllEntities (simple_movement.cpp lines 33-45)
on one entity.  An entity without SimpleMovement data is not in
component_data_ and is left unchanged.  For an entity in the loop the code
unconditionally dereferences the TransformData pointer; when the entity has
no Transform data that pointer is null, modelled as none (crash). -/
def UpdateEntity (dt : Int) (e : Entity) : Option Entity :=
  match e.simpleMovement with
  | none => some e
  | some sm =>
    match e.transform with
    | none => none
    | some t =>
      some { e with
              transform := some
                { position := t.position.add ((sm.velocity.scale (dt : ℚ)).divScalar 1000) } }

/-- SimpleMovementComponent::UpdateAllEntities over a list of entities:
position += velocity * delta_time / 1000 for every entity holding
SimpleMovement data; none when any iteration dereferences a null
TransformData pointer. -/
def UpdateAllEntities (dt : Int) (es : List Entity) : Option (List Entity) :=
  es.mapM (UpdateEntity dt)

/-- SimpleMovementComponent::ExportRawData (simple_movement.cpp lines 47-58):
nullptr when the entity holds no data; otherwise a SimpleMovementDef blob
built from the current velocity. -/
def ExportRawData (e : Entity) : Option SimpleMovementDef :=
  match e.simpleMovement with
  | none => none
  | some data => some { velocity := data.velocity }

end SimpleMovementComponent

/-- ServicesData (services.h line 42): an empty per-entity record; the
Services component never stores per-entity state. -/
structure ServicesData where
  deriving DecidableEq, Repr

/-- Result of a call to ServicesComponent::AddFromRawData: either the
assertion assert(false) fired, or a data record was produced. -/
inductive ServicesAddResult where
  | assertionFailed
  | dataAdded (d : ServicesData)
  deriving DecidableEq, Repr

/-- ServicesComponent::AddFromRawData (services.h lines 109-111): the body is
assert(false); no data record is ever produced, whatever the entity and the
raw-data blob are. -/
def ServicesComponent.AddFromRawData (_entity : Nat) (_rawData : List Nat) :
    ServicesAddResult :=
  ServicesAddResult.assertionFailed

/-- A shader program as seen through the asset-manager interface: its name,
the feature defines compiled into it, and the uniforms set on it so far (in
order). -/
structure Shader where
  name : String
  defines : List String
  uniformsSet : List String
  deriving DecidableEq, Repr

/-- Shader::SetUniform: records the uniform assignment on the shader. -/
def Shader.SetUniform (s : Shader) (u : String) : Shader :=
  { s with uniformsSet := s.uniformsSet ++ [u] }

/-- Modelled from the spec: the fplbase asset manager (an external
collaborator, spec section 6) holds the currently loaded shaders and the
global define lists; a shader that is missing or not yet loaded is simply
absent from the list. -/
structure AssetManager where
  shaders : List Shader
  globalDefinesToAdd : List String
  globalDefinesToOmit : List String
  deriving DecidableEq, Repr

/-- AssetManager::FindShader: the first loaded shader with the given name;
none models the null ShaderHandle returned for a missing shader. -/
def AssetManager.FindShader (am : AssetManager) (n : String) : Option Shader :=
  am.shaders.find? (fun s => s.name == n)

/-- AssetManager::ResetGlobalShaderDefines: stores the global define lists;
the loaded-shader list is unchanged. -/
def AssetManager.ResetGlobalShaderDefines (am : AssetManager)
    (toAdd toOmit : List String) : AssetManager :=
  { am with globalDefinesToAdd := toAdd, globalDefinesToOmit := toOmit }

/-- AssetManager::ForEachShaderWithDefine: applies fn to every loaded shader
that declares the given define; shaders without the define, and shaders not
loaded, are untouched (spec sections 4.4 and 6). -/
def AssetManager.ForEachShaderWithDefine (am : AssetManager) (tag : String)
    (fn : Shader → Shader) : AssetManager :=
  { am with shaders := am.shaders.map (fun s => if tag ∈ s.defines then fn s else s) }

/-- ShaderDefines (declared in world.h, used throughout world_renderer.cpp):
the four global shader feature toggles, in the order of kDefinesText. -/
inductive ShaderDefines where
  | kPhongShading
  | kSpecularEffect
  | kShadowEffect
  | kNormals
  deriving DecidableEq, Repr

/-- kDefinesText (world_renderer.cpp lines 49-50). -/
def kDefinesText : ShaderDefines → String
  | ShaderDefines.kPhongShading => "PHONG_SHADING"
  | ShaderDefines.kSpecularEffect => "SPECULAR_EFFECT"
  | ShaderDefines.kShadowEffect => "SHADOW_EFFECT"
  | ShaderDefines.kNormals => "NORMALS"

/-- The loop of RefreshGlobalShaderDefines runs over all kNumShaderDefines
defines in declaration order. -/
def allShaderDefines : List ShaderDefines :=
  [ShaderDefines.kPhongShading, ShaderDefines.kSpecularEffect,
   ShaderDefines.kShadowEffect, ShaderDefines.kNormals]

/-- kShadowMapTextureID (world_renderer.cpp line 42): the texture unit the
fragment shader expects the shadow map on. -/
def kShadowMapTextureID : Int := 7

/-- kShadowMapClearColor (world_renderer.cpp line 47):
vec4(0.99f, 0.99f, 0.99f, 1.0f). -/
def kShadowMapClearColor : Vec4 := ⟨99 / 100, 99 / 100, 99 / 100, 1⟩

/-- The rendering option toggles of the world, one per shader define. -/
structure RenderingOptions where
  phongShading : Bool
  specularEffect : Bool
  shadowEffect : Bool
  normals : Bool
  deriving DecidableEq, Repr

/-- The world and renderer state read and written by the render path: the
rendering-dirty flag and option toggles (World, world.h), the asset manager,
the render flags, and the WorldRenderer shader handle members (none models a
null ShaderHandle). -/
structure WorldState where
  renderingDirty : Bool
  options : RenderingOptions
  assetManager : AssetManager
  skipRendermeshRendering : Bool
  drawDebugPhysics : Bool
  depthShader : Option Shader
  depthSkinnedShader : Option Shader
  texturedShader : Option Shader
  deriving DecidableEq, Repr

/-- World::RenderingOptionEnabled. -/
def WorldState.RenderingOptionEnabled (w : WorldState) : ShaderDefines → Bool
  | ShaderDefines.kPhongShading => w.options.phongShading
  | ShaderDefines.kSpecularEffect => w.options.specularEffect
  | ShaderDefines.kShadowEffect => w.options.shadowEffect
  | ShaderDefines.kNormals => w.options.normals

/-- World::ResetRenderingDirty: clears the rendering-dirty flag. -/
def WorldState.ResetRenderingDirty (w : WorldState) : WorldState :=
  { w with renderingDirty := false }

/-- Modelled from the spec: World::SetRenderingOption for the shadow effect
(world.h is not part of the excerpt); toggling a rendering option stores the
new value and sets the rendering-dirty flag. -/
def WorldState.SetShadowEffectOption (w : WorldState) (b : Bool) : WorldState :=
  { w with options := { w.options with shadowEffect := b }, renderingDirty := true }

/-- Observable actions of the render path, in program order. -/
inductive RenderEvent where
  | refreshDefines
  | setShadowMapAsRenderTarget
  | clearFrameBuffer (color : Vec4)
  | setCulling
  | depthRenderPass (p : Nat)
  | setScreenRenderTarget
  | setDepthBiasUniforms
  | broadcastUniforms (tag : String)
  | bindShadowMapAsTexture (unit : Int)
  | mainRenderPass (p : Nat)
  | debugDrawPhysics
  | render3dText
  deriving DecidableEq, Repr

/-- Events performed while the off-screen shadow-map target is bound and
that write into the shadow map (the clear and the depth-geometry passes). -/
def RenderEvent.writesShadowMap : RenderEvent → Bool
  | RenderEvent.clearFrameBuffer _ => true
  | RenderEvent.depthRenderPass _ => true
  | _ => false

/-- Events of the main pass that read the shadow map (binding it as a
texture and the draw passes sampling it). -/
def RenderEvent.readsShadowMap : RenderEvent → Bool
  | RenderEvent.bindShadowMapAsTexture _ => true
  | RenderEvent.mainRenderPass _ => true
  | _ => false

/-- Number of shader-define refreshes recorded in a trace. -/
def refreshCount (tr : List RenderEvent) : Nat :=
  tr.count RenderEvent.refreshDefines

/-- corgi::RenderPass_Count: the corgi component library declares two render
passes (spec section 4.4: opaque and transparent). -/
def RenderPass_Count : Nat := 2

namespace WorldRenderer

/-- WorldRenderer::RefreshGlobalShaderDefines (world_renderer.cpp lines
65-92): collects the disabled options into defines_to_omit (defines_to_add
stays empty), resets the global defines on the asset manager, looks up the
three core shaders and reloads them — the code dereferences the returned
handles without a null check, so a missing shader (none) crashes — then
clears the rendering-dirty flag. -/
def RefreshGlobalShaderDefines (w : WorldState) : Option WorldState :=
  let definesToAdd : List String := []
  let definesToOmit :=
    (allShaderDefines.filter (fun d => !w.RenderingOptionEnabled d)).map kDefinesText
  let am := w.assetManager.ResetGlobalShaderDefines definesToAdd definesToOmit
  match am.FindShader "shaders/render_depth",
      am.FindShader "shaders/render_depth_skinned",
      am.FindShader "shaders/textured" with
  | some ds, some dss, some ts =>
    some (WorldState.ResetRenderingDirty
      { w with assetManager := am, depthShader := some ds,
               depthSkinnedShader := some dss, texturedShader := some ts })
  | _, _, _ => none

/-- The event trace of WorldRenderer::CreateShadowMap (world_renderer.cpp
lines 94-146): bind the off-screen shadow-map target, clear it to
kShadowMapClearColor, set back-face culling, render every corgi render pass
with the depth shader index, restore the on-screen target. -/
def createShadowMapTrace : List RenderEvent :=
  [RenderEvent.setShadowMapAsRenderTarget,
   RenderEvent.clearFrameBuffer kShadowMapClearColor,
   RenderEvent.setCulling]
  ++ (List.range RenderPass_Count).map RenderEvent.depthRenderPass
  ++ [RenderEvent.setScreenRenderTarget]

/-- WorldRenderer::CreateShadowMap (world_renderer.cpp lines 94-146): the
light and config reads are modelled as total; the two depth shaders are set
on the renderer, dereferenced without a null check (none crashes).  The
result carries the event trace. -/
def CreateShadowMap (w : WorldState) : Option (WorldState × List RenderEvent) :=
  match w.depthShader, w.depthSkinnedShader with
  | some _, some _ => some (w, createShadowMapTrace)
  | _, _ => none

/-- WorldRenderer::SetLightingUniforms (world_renderer.cpp lines 191-208):
shadow_intensity is set only when the shadow effect is enabled; the light
data reads are modelled as total. -/
def SetLightingUniforms (w : WorldState) (s : Shader) : Shader :=
  let s1 :=
    if w.RenderingOptionEnabled ShaderDefines.kShadowEffect then
      s.SetUniform "shadow_intensity"
    else s
  (((s1.SetUniform "ambient_material").SetUniform
      "diffuse_material").SetUniform "specular_material").SetUniform "shininess"

/-- WorldRenderer::SetFogUniforms (world_renderer.cpp lines 179-189). -/
def SetFogUniforms (s : Shader) : Shader :=
  (((s.SetUniform "fog_roll_in_dist").SetUniform "fog_max_dist").SetUniform
      "fog_color").SetUniform "fog_max_saturation"

/-- WorldRenderer::RenderShadowMap (world_renderer.cpp lines 210-227):
refresh the shader defines when the dirty flag is set, set the bias uniform
on the two depth shaders (dereferenced without a null check), then
CreateShadowMap. -/
def RenderShadowMap (w : WorldState) : Option (WorldState × List RenderEvent) :=
  match (if w.renderingDirty then RefreshGlobalShaderDefines w else some w) with
  | none => none
  | some w1 =>
    match w1.depthShader, w1.depthSkinnedShader with
    | some ds, some dss =>
      let w2 := { w1 with depthShader := some (ds.SetUniform "bias"),
                          depthSkinnedShader := some (dss.SetUniform "bias") }
      match CreateShadowMap w2 with
      | none => none
      | some (w3, tr2) =>
        some (w3, (if w.renderingDirty then [RenderEvent.refreshDefines] else [])
          ++ RenderEvent.setDepthBiasUniforms :: tr2)
    | _, _ => none

/-- The scene-setup uniform broadcasts of WorldRenderer::RenderWorld
(world_renderer.cpp lines 247-268): view and light matrices to every shader
with the shadow-effect define (only when the option is enabled), river
parameters to every WATER shader, lighting to every phong-shading shader,
fog to every FOG_EFFECT shader. -/
def broadcastWorldUniforms (w1 : WorldState) : AssetManager :=
  let am1 :=
    if w1.RenderingOptionEnabled ShaderDefines.kShadowEffect then
      w1.assetManager.ForEachShaderWithDefine
        (kDefinesText ShaderDefines.kShadowEffect)
        (fun s => (s.SetUniform "view_projection").SetUniform "light_view_projection")
    else w1.assetManager
  let am2 := am1.ForEachShaderWithDefine "WATER"
    (fun s => (s.SetUniform "river_offset").SetUniform "texture_repeats")
  let am3 := am2.ForEachShaderWithDefine
    (kDefinesText ShaderDefines.kPhongShading) (SetLightingUniforms w1)
  am3.ForEachShaderWithDefine "FOG_EFFECT" SetFogUniforms

/-- The event trace of the body of WorldRenderer::RenderWorld after a
possible define refresh (world_renderer.cpp lines 238-291): the uniform
broadcasts, binding the shadow map on texture unit kShadowMapTextureID, the
main render passes unless skip_rendermesh_rendering, the optional physics
debug draw, and the 3-D text pass. -/
def renderWorldBodyTrace (w1 : WorldState) : List RenderEvent :=
  (if w1.RenderingOptionEnabled ShaderDefines.kShadowEffect then
      [RenderEvent.broadcastUniforms (kDefinesText ShaderDefines.kShadowEffect)]
    else [])
  ++ [RenderEvent.broadcastUniforms "WATER",
      RenderEvent.broadcastUniforms (kDefinesText ShaderDefines.kPhongShading),
      RenderEvent.broadcastUniforms "FOG_EFFECT",
      RenderEvent.bindShadowMapAsTexture kShadowMapTextureID]
  ++ (if w1.skipRendermeshRendering then []
      else (List.range RenderPass_Count).map RenderEvent.mainRenderPass)
  ++ (if w1.drawDebugPhysics then [RenderEvent.debugDrawPhysics] else [])
  ++ [RenderEvent.render3dText]

/-- WorldRenderer::RenderWorld (world_renderer.cpp lines 229-292): refresh
the shader defines when the dirty flag is set (crashing on a missing core
shader), broadcast the per-define uniform groups, bind the shadow map as a
texture and run the main passes.  The result carries the event trace. -/
def RenderWorld (w : WorldState) : Option (WorldState × List RenderEvent) :=
  match (if w.renderingDirty then RefreshGlobalShaderDefines w else some w) with
  | none => none
  | some w1 =>
    some ({ w1 with assetManager := broadcastWorldUniforms w1 },
      (if w.renderingDirty then [RenderEvent.refreshDefines] else [])
        ++ renderWorldBodyTrace w1)

/-- Modelled from the spec: the per-frame driver issues the shadow pass and
then the main pass (spec section 4.4, Idle to ShadowPass to MainPass to
Idle; the GameState::Render body is not part of the excerpt). -/
def RenderFrame (w : WorldState) : Option (WorldState × List RenderEvent) :=
  match RenderShadowMap w with
  | none => none
  | some (w1, tr1) =>
    match RenderWorld w1 with
    | none => none
    | some (w2, tr2) => some (w2, tr1 ++ tr2)

end WorldRenderer

/-- Helper: an entity satisfying the dependency invariant is updated
successfully by one loop iteration of UpdateAllEntities. -/
theorem updateEntity_some_of_depInvariant (dt : Int) (e : Entity)
    (h : e.depInvariant) :
    ∃ e2, SimpleMovementComponent.UpdateEntity dt e = some e2 := by
  unfold SimpleMovementComponent.UpdateEntity
  cases hsm : e.simpleMovement with
  | none => exact ⟨e, rfl⟩
  | some sm =>
    cases ht : e.transform with
    | none =>
      exfalso
      have hts := h (by rw [hsm]; rfl)
      rw [ht] at hts
      cases hts
    | some t => exact ⟨_, rfl⟩

/-- Helper: one loop iteration of UpdateAllEntities preserves the dependency
invariant. -/
theorem updateEntity_preserves_depInvariant (dt : Int) (e e2 : Entity)
    (hupd : SimpleMovementComponent.UpdateEntity dt e = some e2)
    (h : e.depInvariant) : e2.depInvariant := by
  unfold SimpleMovementComponent.UpdateEntity at hupd
  cases hsm : e.simpleMovement with
  | none =>
    rw [hsm] at hupd
    cases hupd
    exact h
  | some sm =>
    cases ht : e.transform with
    | none =>
      exfalso
      have hts := h (by rw [hsm]; rfl)
      rw [ht] at hts
      cases hts
    | some t =>
      rw [hsm, ht] at hupd
      cases hupd
      intro _
      rfl

/-- Helper: UpdateAllEntities succeeds, preserves length and preserves the
dependency invariant when every input entity satisfies it. -/
theorem updateAllEntities_total (dt : Int) (es : List Entity)
    (h : ∀ e ∈ es, e.depInvariant) :
    ∃ es2, SimpleMovementComponent.UpdateAllEntities dt es = some es2 ∧
      es2.length = es.length ∧ ∀ e2 ∈ es2, e2.depInvariant := by
  induction es with
  | nil => exact ⟨[], rfl, rfl, by intro e2 he2; cases he2⟩
  | cons a l ih =>
    obtain ⟨a2, ha⟩ :=
      updateEntity_some_of_depInvariant dt a (h a (List.mem_cons_self a l))
    obtain ⟨l2, hl, hlen, hinv⟩ :=
      ih (fun e he => h e (List.mem_cons_of_mem a he))
    refine ⟨a2 :: l2, ?_, ?_, ?_⟩
    · unfold SimpleMovementComponent.UpdateAllEntities at hl ⊢
      rw [List.mapM_cons, ha, hl]
      rfl
    · simpa using hlen
    · intro e2 he2
      rcases List.mem_cons.mp he2 with he2 | he2
      · subst he2
        exact updateEntity_preserves_depInvariant dt a e2 ha
          (h a (List.mem_cons_self a l))
      · exact hinv e2 he2

/-- Claim C1: round-trip of SimpleMovement serialization.  Deserializing a
valid SimpleMovementDef blob B onto a fresh entity with AddFromRawData and
then serializing with ExportRawData yields exactly B (the velocity vector is
copied componentwise, so equality is exact, hence within any tolerance);
equivalently, re-deserializing the exported blob of an entity holding
SimpleMovement data reproduces that data. -/
theorem C1_simple_movement_roundtrip :
    (∀ B : SimpleMovementDef,
      SimpleMovementComponent.ExportRawData
        (SimpleMovementComponent.AddFromRawData freshEntity B) = some B) ∧
    (∀ (e : Entity) (d : SimpleMovementData), e.simpleMovement = some d →
      ∃ B, SimpleMovementComponent.ExportRawData e = some B ∧
        (SimpleMovementComponent.AddFromRawData freshEntity B).simpleMovement
          = e.simpleMovement) := by
  constructor
  · intro B
    rfl
  · intro e d h
    refine ⟨{ velocity := d.velocity }, ?_, ?_⟩
    · unfold SimpleMovementComponent.ExportRawData
      rw [h]
    · rw [h]
      exact rfl

/-- Witness for C1 at a concrete entity with velocity (1, 2, 3). -/
theorem C1_simple_movement_roundtrip_witness :
    ∃ B, SimpleMovementComponent.ExportRawData
        { simpleMovement := some { velocity := ⟨1, 2, 3⟩ }, transform := none }
          = some B ∧
      (SimpleMovementComponent.AddFromRawData freshEntity B).simpleMovement
        = Entity.simpleMovement
            { simpleMovement := some { velocity := ⟨1, 2, 3⟩ },
              transform := none } :=
  C1_simple_movement_roundtrip.2
    { simpleMovement := some { velocity := ⟨1, 2, 3⟩ }, transform := none }
    { velocity := ⟨1, 2, 3⟩ } rfl

/-- Claim C2: one call to UpdateAllEntities adds velocity * delta_time / 1000
to the position of every entity holding SimpleMovement and Transform data;
with velocity (1, 0, 0) and delta_time = 1000 ms the x coordinate grows by
exactly 1. -/
theorem C2_update_moves_position :
    (∀ (p v : Vec3) (dt : Int),
      SimpleMovementComponent.UpdateAllEntities dt
          [{ simpleMovement := some { velocity := v },
             transform := some { position := p } }]
        = some [{ simpleMovement := some { velocity := v },
                  transform := some
                    { position := p.add ((v.scale (dt : ℚ)).divScalar 1000) } }]) ∧
    (∀ p : Vec3,
      SimpleMovementComponent.UpdateAllEntities 1000
          [{ simpleMovement := some { velocity := ⟨1, 0, 0⟩ },
             transform := some { position := p } }]
        = some [{ simpleMovement := some { velocity := ⟨1, 0, 0⟩ },
                  transform := some { position := ⟨p.x + 1, p.y, p.z⟩ } }]) := by
  have h1 : ∀ (p v : Vec3) (dt : Int),
      SimpleMovementComponent.UpdateAllEntities dt
          [{ simpleMovement := some { velocity := v },
             transform := some { position := p } }]
        = some [{ simpleMovement := some { velocity := v },
                  transform := some
                    { position := p.add ((v.scale (dt : ℚ)).divScalar 1000) } }] := by
    intro p v dt
    rfl
  refine ⟨h1, ?_⟩
  intro p
  rw [h1 p ⟨1, 0, 0⟩ 1000]
  have hv : Vec3.add p ((Vec3.scale ⟨1, 0, 0⟩ ((1000 : Int) : ℚ)).divScalar 1000)
      = ⟨p.x + 1, p.y, p.z⟩ := by
    unfold Vec3.add Vec3.scale Vec3.divScalar
    norm_num
  rw [hv]

/-- Claim C3 counterexample: an entity holding SimpleMovement data but no
Transform data is not skipped by UpdateAllEntities; the loop body
unconditionally dereferences the null TransformData pointer (no check, no
log), so the update does not complete. -/
theorem C3_missing_transform_crashes :
    SimpleMovementComponent.UpdateAllEntities 16
        [{ simpleMovement := some { velocity := ⟨1, 0, 0⟩ }, transform := none }]
      = none := rfl

/-- Claim C3 amended: UpdateAllEntities performs no missing-sibling check; it
completes (without skipping any entity) exactly under the dependency
invariant that every entity holding SimpleMovement data also holds Transform
data, the invariant InitEntity establishes. -/
theorem C3_update_completes_under_invariant (dt : Int) (es : List Entity)
    (h : ∀ e ∈ es, e.depInvariant) :
    ∃ es2, SimpleMovementComponent.UpdateAllEntities dt es = some es2 ∧
      es2.length = es.length := by
  obtain ⟨es2, hes2, hlen, _⟩ := updateAllEntities_total dt es h
  exact ⟨es2, hes2, hlen⟩

/-- Witness for the amended C3 on a one-entity list satisfying the
invariant. -/
theorem C3_update_completes_under_invariant_witness :
    ∃ es2, SimpleMovementComponent.UpdateAllEntities 16
        [{ simpleMovement := some { velocity := ⟨1, 0, 0⟩ },
           transform := some { position := ⟨0, 0, 0⟩ } }] = some es2 ∧
      es2.length = 1 :=
  C3_update_completes_under_invariant 16
    [{ simpleMovement := some { velocity := ⟨1, 0, 0⟩ },
       transform := some { position := ⟨0, 0, 0⟩ } }]
    (by
      intro e he
      rw [List.mem_singleton] at he
      subst he
      intro _
      rfl)

/-- Claim C7: ExportRawData returns none exactly when the entity holds no
SimpleMovement data; when it holds data it returns a SimpleMovementDef blob
carrying the current velocity, the format AddFromRawData consumes. -/
theorem C7_export_null_iff_no_data (e : Entity) :
    (SimpleMovementComponent.ExportRawData e = none ↔ e.simpleMovement = none) ∧
    (∀ d, e.simpleMovement = some d →
      SimpleMovementComponent.ExportRawData e = some { velocity := d.velocity }) := by
  unfold SimpleMovementComponent.ExportRawData
  cases hsm : e.simpleMovement with
  | none => exact ⟨by simp, by intro d hd; cases hd⟩
  | some sm =>
    refine ⟨by simp, ?_⟩
    intro d hd
    cases hd
    rfl

/-- Witness for C7 at a concrete entity holding velocity (1, 2, 3). -/
theorem C7_export_null_iff_no_data_witness :
    SimpleMovementComponent.ExportRawData
        { simpleMovement := some { velocity := ⟨1, 2, 3⟩ }, transform := none }
      = some { velocity := ⟨1, 2, 3⟩ } :=
  (C7_export_null_iff_no_data
      { simpleMovement := some { velocity := ⟨1, 2, 3⟩ }, transform := none }).2
    { velocity := ⟨1, 2, 3⟩ } rfl

/-- Claim C9: InitEntity attaches the Transform component, so SimpleMovement
data acquisition establishes the dependency invariant and the per-frame
update preserves it: (1) InitEntity always leaves the entity with Transform
data; (2) AddFromRawData on an entity not yet holding SimpleMovement data
leaves it holding both SimpleMovement and Transform data; (3) AddFromRawData
preserves the invariant on every entity; (4) UpdateAllEntities preserves the
invariant. -/
theorem C9_dependency_autoattach :
    (∀ e : Entity,
      ((SimpleMovementComponent.InitEntity e).transform).isSome = true) ∧
    (∀ (e : Entity) (B : SimpleMovementDef), e.simpleMovement = none →
      ((SimpleMovementComponent.AddFromRawData e B).transform).isSome = true ∧
      ((SimpleMovementComponent.AddFromRawData e B).simpleMovement).isSome = true) ∧
    (∀ (e : Entity) (B : SimpleMovementDef), e.depInvariant →
      (SimpleMovementComponent.AddFromRawData e B).depInvariant) ∧
    (∀ (dt : Int) (es es2 : List Entity),
      SimpleMovementComponent.UpdateAllEntities dt es = some es2 →
      (∀ e ∈ es, e.depInvariant) → ∀ e2 ∈ es2, e2.depInvariant) := by
  have hinit : ∀ e : Entity,
      ((SimpleMovementComponent.InitEntity e).transform).isSome = true := by
    intro e
    unfold SimpleMovementComponent.InitEntity TransformComponent.AddEntityToComponent
    cases ht : e.transform with
    | none => rfl
    | some t =>
      rw [ht]
      rfl
  refine ⟨hinit, ?_, ?_, ?_⟩
  · intro e B hsm
    unfold SimpleMovementComponent.AddFromRawData SimpleMovementComponent.AddEntity
    rw [hsm]
    exact ⟨hinit _, rfl⟩
  · intro e B hinv
    unfold SimpleMovementComponent.AddFromRawData SimpleMovementComponent.AddEntity
    cases hsm : e.simpleMovement with
    | none =>
      intro _
      exact hinit _
    | some sm =>
      intro _
      exact hinv (by rw [hsm]; rfl)
  · intro dt es es2 hupd h
    obtain ⟨es3, hes3, _, hinv⟩ := updateAllEntities_total dt es h
    rw [hupd] at hes3
    cases hes3
    exact hinv

/-- Witness for C9: the invariant parts applied at a fresh entity and at a
concrete one-entity update. -/
theorem C9_dependency_autoattach_witness :
    ((SimpleMovementComponent.AddFromRawData freshEntity
        { velocity := ⟨1, 2, 3⟩ }).transform).isSome = true ∧
    Entity.depInvariant
      { simpleMovement := some { velocity := ⟨0, 0, 0⟩ },
        transform := some
          { position :=
              Vec3.add ⟨0, 0, 0⟩
                ((Vec3.scale ⟨0, 0, 0⟩ ((0 : Int) : ℚ)).divScalar 1000) } } :=
  ⟨(C9_dependency_autoattach.2.1 freshEntity { velocity := ⟨1, 2, 3⟩ } rfl).1,
   C9_dependency_autoattach.2.2.2 0
     [{ simpleMovement := some { velocity := ⟨0, 0, 0⟩ },
        transform := some { position := ⟨0, 0, 0⟩ } }]
     [{ simpleMovement := some { velocity := ⟨0, 0, 0⟩ },
        transform := some
          { position :=
              Vec3.add ⟨0, 0, 0⟩
                ((Vec3.scale ⟨0, 0, 0⟩ ((0 : Int) : ℚ)).divScalar 1000) } }]
     rfl
     (by
       intro e he
       rw [List.mem_singleton] at he
       subst he
       intro _
       rfl)
     _ (List.mem_singleton.mpr rfl)⟩

/-- Claim C10: ServicesComponent::AddFromRawData fires its assertion for
every entity and every raw-data blob; the deserialization path never
produces a ServicesData record (the result is never the dataAdded
constructor). -/
theorem C10_services_never_deserializes :
    ∀ (entity : Nat) (raw : List Nat),
      ServicesComponent.AddFromRawData entity raw
        = ServicesAddResult.assertionFailed :=
  fun _ _ => rfl

/-- Helper: resetting the global shader defines does not change which
shaders FindShader can locate. -/
theorem findShader_reset (am : AssetManager) (a o : List String) (n : String) :
    (am.ResetGlobalShaderDefines a o).FindShader n = am.FindShader n := rfl

/-- Helper: RefreshGlobalShaderDefines succeeds and clears the dirty flag
whenever the three core shaders are loaded. -/
theorem refresh_succeeds (w : WorldState)
    (h1 : (w.assetManager.FindShader "shaders/render_depth").isSome = true)
    (h2 : (w.assetManager.FindShader "shaders/render_depth_skinned").isSome = true)
    (h3 : (w.assetManager.FindShader "shaders/textured").isSome = true) :
    ∃ wr, WorldRenderer.RefreshGlobalShaderDefines w = some wr ∧
      wr.renderingDirty = false := by
  obtain ⟨ds, hds⟩ := Option.isSome_iff_exists.mp h1
  obtain ⟨dss, hdss⟩ := Option.isSome_iff_exists.mp h2
  obtain ⟨ts, hts⟩ := Option.isSome_iff_exists.mp h3
  simp only [WorldRenderer.RefreshGlobalShaderDefines, findShader_reset]
  rw [hds, hdss, hts]
  exact ⟨_, rfl, rfl⟩

/-- Helper: with the dirty flag clear, RenderWorld skips the refresh and
performs only the uniform broadcasts and draw passes. -/
theorem renderWorld_clean (w : WorldState) (h : w.renderingDirty = false) :
    WorldRenderer.RenderWorld w
      = some ({ w with assetManager := WorldRenderer.broadcastWorldUniforms w },
              WorldRenderer.renderWorldBodyTrace w) := by
  obtain ⟨b, opts, am, skip, dbg, ds, dss, ts⟩ := w
  cases b with
  | true => exact Bool.noConfusion h
  | false => rfl

/-- Helper: with the dirty flag set and a successful refresh, RenderWorld
performs the refresh first and then the broadcasts and draw passes. -/
theorem renderWorld_dirty (w wr : WorldState) (hd : w.renderingDirty = true)
    (hr : WorldRenderer.RefreshGlobalShaderDefines w = some wr) :
    WorldRenderer.RenderWorld w
      = some ({ wr with assetManager := WorldRenderer.broadcastWorldUniforms wr },
              RenderEvent.refreshDefines :: WorldRenderer.renderWorldBodyTrace wr) := by
  obtain ⟨b, opts, am, skip, dbg, ds, dss, ts⟩ := w
  cases b with
  | false => exact Bool.noConfusion hd
  | true =>
    unfold WorldRenderer.RenderWorld
    rw [hr]
    rfl

/-- Helper: the body trace of RenderWorld contains no refresh event. -/
theorem renderWorldBodyTrace_refreshCount (w1 : WorldState) :
    refreshCount (WorldRenderer.renderWorldBodyTrace w1) = 0 := by
  unfold refreshCount WorldRenderer.renderWorldBodyTrace
  cases h1 : w1.RenderingOptionEnabled ShaderDefines.kShadowEffect <;>
    cases h2 : w1.skipRendermeshRendering <;>
      cases h3 : w1.drawDebugPhysics <;> rfl

/-- Helper: any successful RenderWorld call produced exactly the refresh
prefix (when dirty) followed by the body trace of the refreshed world. -/
theorem renderWorld_eq (w w1 : WorldState) (tr : List RenderEvent)
    (h : WorldRenderer.RenderWorld w = some (w1, tr)) :
    ∃ w1', w1 = { w1' with assetManager := WorldRenderer.broadcastWorldUniforms w1' } ∧
      tr = (if w.renderingDirty then [RenderEvent.refreshDefines] else [])
        ++ WorldRenderer.renderWorldBodyTrace w1' := by
  unfold WorldRenderer.RenderWorld at h
  cases hrf : (if w.renderingDirty then WorldRenderer.RefreshGlobalShaderDefines w
      else some w) with
  | none =>
    rw [hrf] at h
    exact Option.noConfusion h
  | some w1' =>
    rw [hrf] at h
    injection h with h'
    injection h' with ha hb
    exact ⟨w1', ha.symm, hb.symm⟩

/-- Helper: any successful RenderShadowMap call produced exactly the refresh
prefix (when dirty), the bias uniforms and the CreateShadowMap trace. -/
theorem renderShadowMap_eq (w w1 : WorldState) (tr : List RenderEvent)
    (h : WorldRenderer.RenderShadowMap w = some (w1, tr)) :
    tr = (if w.renderingDirty then [RenderEvent.refreshDefines] else [])
      ++ RenderEvent.setDepthBiasUniforms :: WorldRenderer.createShadowMapTrace := by
  unfold WorldRenderer.RenderShadowMap at h
  cases hrf : (if w.renderingDirty then WorldRenderer.RefreshGlobalShaderDefines w
      else some w) with
  | none =>
    rw [hrf] at h
    exact Option.noConfusion h
  | some w1' =>
    rw [hrf] at h
    obtain ⟨b1, opts1, am1, skip1, dbg1, wds, wdss, wts⟩ := w1'
    cases wds with
    | none => exact Option.noConfusion h
    | some ds =>
      cases wdss with
      | none => exact Option.noConfusion h
      | some dss =>
        injection h with h3
        injection h3 with ha hb
        exact hb.symm

/-- Helper: the shadow-pass trace reads no shadow-map texture. -/
theorem renderShadowMapTrace_all_no_reads (d : Bool) :
    ((if d then [RenderEvent.refreshDefines] else [])
      ++ RenderEvent.setDepthBiasUniforms :: WorldRenderer.createShadowMapTrace).all
      (fun e => ! e.readsShadowMap) = true := by
  cases d <;> rfl

/-- Helper: the main-pass trace writes no shadow map. -/
theorem renderWorldTrace_all_no_writes (d : Bool) (w1 : WorldState) :
    ((if d then [RenderEvent.refreshDefines] else [])
      ++ WorldRenderer.renderWorldBodyTrace w1).all
      (fun e => ! e.writesShadowMap) = true := by
  unfold WorldRenderer.renderWorldBodyTrace
  cases d <;>
    cases h1 : w1.RenderingOptionEnabled ShaderDefines.kShadowEffect <;>
      cases h2 : w1.skipRendermeshRendering <;>
        cases h3 : w1.drawDebugPhysics <;> rfl

/-- Helper: no event of a successful shadow pass reads the shadow map. -/
theorem renderShadowMap_no_reads (w w1 : WorldState) (tr : List RenderEvent)
    (h : WorldRenderer.RenderShadowMap w = some (w1, tr)) :
    ∀ e ∈ tr, e.readsShadowMap = false := by
  have htr := renderShadowMap_eq w w1 tr h
  subst htr
  intro e he
  have hall := List.all_eq_true.mp (renderShadowMapTrace_all_no_reads w.renderingDirty) e he
  simpa using hall

/-- Helper: no event of a successful main pass writes the shadow map. -/
theorem renderWorld_no_writes (w w1 : WorldState) (tr : List RenderEvent)
    (h : WorldRenderer.RenderWorld w = some (w1, tr)) :
    ∀ e ∈ tr, e.writesShadowMap = false := by
  obtain ⟨w1', _, htr⟩ := renderWorld_eq w w1 tr h
  subst htr
  intro e he
  have hall := List.all_eq_true.mp (renderWorldTrace_all_no_writes w.renderingDirty w1') e he
  simpa using hall

/-- Helper: in a trace made of a write-only part followed by a read-only
part, every write index precedes every read index. -/
theorem no_read_before_write_of_append (l1 l2 : List RenderEvent)
    (h1 : ∀ e ∈ l1, e.readsShadowMap = false)
    (h2 : ∀ e ∈ l2, e.writesShadowMap = false) (i j : Nat)
    (hi : i < (l1 ++ l2).length) (hj : j < (l1 ++ l2).length)
    (hw : ((l1 ++ l2).get ⟨i, hi⟩).writesShadowMap = true)
    (hr : ((l1 ++ l2).get ⟨j, hj⟩).readsShadowMap = true) : i < j := by
  have hlen : (l1 ++ l2).length = l1.length + l2.length := List.length_append l1 l2
  have hil : i < l1.length := by
    by_contra hcon
    push_neg at hcon
    have hb : i - l1.length < l2.length := by omega
    have hmem : (l1 ++ l2).get ⟨i, hi⟩ ∈ l2 := by
      rw [List.get_eq_getElem, List.getElem_append_right hcon]
      exact List.getElem_mem hb
    have hfalse := h2 _ hmem
    rw [hw] at hfalse
    exact Bool.noConfusion hfalse
  have hjl : l1.length ≤ j := by
    by_contra hcon
    push_neg at hcon
    have hmem : (l1 ++ l2).get ⟨j, hj⟩ ∈ l1 := by
      rw [List.get_eq_getElem, List.getElem_append_left hcon]
      exact List.getElem_mem hcon
    have hfalse := h1 _ hmem
    rw [hr] at hfalse
    exact Bool.noConfusion hfalse
  omega

/-- Helper: a loaded shader without the broadcast define is untouched by
ForEachShaderWithDefine. -/
theorem forEach_untagged (am : AssetManager) (tag : String) (fn : Shader → Shader)
    (s : Shader) (hs : s ∈ am.shaders) (ht : tag ∉ s.defines) :
    s ∈ (am.ForEachShaderWithDefine tag fn).shaders := by
  unfold AssetManager.ForEachShaderWithDefine
  have hm := List.mem_map_of_mem (fun x => if tag ∈ x.defines then fn x else x) hs
  simp only at hm
  rw [if_neg ht] at hm
  exact hm

/-- Helper: a loaded shader carrying none of the four broadcast defines is
untouched by the scene-setup broadcasts of RenderWorld. -/
theorem broadcast_untagged (w1 : WorldState) (s : Shader)
    (hs : s ∈ w1.assetManager.shaders)
    (h1 : "SHADOW_EFFECT" ∉ s.defines) (h2 : "WATER" ∉ s.defines)
    (h3 : "PHONG_SHADING" ∉ s.defines) (h4 : "FOG_EFFECT" ∉ s.defines) :
    s ∈ (WorldRenderer.broadcastWorldUniforms w1).shaders := by
  unfold WorldRenderer.broadcastWorldUniforms
  have m1 : s ∈ (if w1.RenderingOptionEnabled ShaderDefines.kShadowEffect then
      w1.assetManager.ForEachShaderWithDefine
        (kDefinesText ShaderDefines.kShadowEffect)
        (fun s => (s.SetUniform "view_projection").SetUniform "light_view_projection")
    else w1.assetManager).shaders := by
    cases ho : w1.RenderingOptionEnabled ShaderDefines.kShadowEffect
    · exact hs
    · exact forEach_untagged _ _ _ _ hs h1
  exact forEach_untagged _ _ _ _
    (forEach_untagged _ _ _ _ (forEach_untagged _ _ _ _ m1 h2) h3) h4

/-- Claim C4: the shader-define refresh is gated on the rendering-dirty flag
and the flag is consumed: after toggling the shadow-effect rendering option
the flag is set, the next RenderWorld call performs exactly one refresh and
clears the flag, and an immediately following RenderWorld call performs zero
refreshes (provided the three core shaders are loaded so the refresh
succeeds). -/
theorem C4_dirty_flag_gates_refresh (w : WorldState) (b : Bool)
    (h1 : (w.assetManager.FindShader "shaders/render_depth").isSome = true)
    (h2 : (w.assetManager.FindShader "shaders/render_depth_skinned").isSome = true)
    (h3 : (w.assetManager.FindShader "shaders/textured").isSome = true) :
    (w.SetShadowEffectOption b).renderingDirty = true ∧
    ∃ w1 tr1, WorldRenderer.RenderWorld (w.SetShadowEffectOption b) = some (w1, tr1) ∧
      refreshCount tr1 = 1 ∧ w1.renderingDirty = false ∧
      ∃ w2 tr2, WorldRenderer.RenderWorld w1 = some (w2, tr2) ∧
        refreshCount tr2 = 0 := by
  obtain ⟨wr, hwr, hwrd⟩ := refresh_succeeds (w.SetShadowEffectOption b) h1 h2 h3
  have hcount1 : refreshCount
      (RenderEvent.refreshDefines :: WorldRenderer.renderWorldBodyTrace wr) = 1 := by
    have hbody := renderWorldBodyTrace_refreshCount wr
    unfold refreshCount at hbody ⊢
    rw [List.count_cons_self, hbody]
  refine ⟨rfl, _, _, renderWorld_dirty _ wr rfl hwr, hcount1, hwrd, _, _,
    renderWorld_clean _ hwrd, renderWorldBodyTrace_refreshCount _⟩

/-- Witness for C4 at a concrete world holding the three core shaders. -/
theorem C4_dirty_flag_gates_refresh_witness :
    (WorldState.SetShadowEffectOption
        { renderingDirty := false, options := ⟨false, false, false, false⟩,
          assetManager := ⟨[⟨"shaders/render_depth", [], []⟩,
                            ⟨"shaders/render_depth_skinned", [], []⟩,
                            ⟨"shaders/textured", [], []⟩], [], []⟩,
          skipRendermeshRendering := false, drawDebugPhysics := false,
          depthShader := none, depthSkinnedShader := none,
          texturedShader := none } true).renderingDirty = true ∧
    ∃ w1 tr1, WorldRenderer.RenderWorld
        (WorldState.SetShadowEffectOption
          { renderingDirty := false, options := ⟨false, false, false, false⟩,
            assetManager := ⟨[⟨"shaders/render_depth", [], []⟩,
                              ⟨"shaders/render_depth_skinned", [], []⟩,
                              ⟨"shaders/textured", [], []⟩], [], []⟩,
            skipRendermeshRendering := false, drawDebugPhysics := false,
            depthShader := none, depthSkinnedShader := none,
            texturedShader := none } true) = some (w1, tr1) ∧
      refreshCount tr1 = 1 ∧ w1.renderingDirty = false ∧
      ∃ w2 tr2, WorldRenderer.RenderWorld w1 = some (w2, tr2) ∧
        refreshCount tr2 = 0 :=
  C4_dirty_flag_gates_refresh
    { renderingDirty := false, options := ⟨false, false, false, false⟩,
      assetManager := ⟨[⟨"shaders/render_depth", [], []⟩,
                        ⟨"shaders/render_depth_skinned", [], []⟩,
                        ⟨"shaders/textured", [], []⟩], [], []⟩,
      skipRendermeshRendering := false, drawDebugPhysics := false,
      depthShader := none, depthSkinnedShader := none, texturedShader := none }
    true rfl rfl rfl

/-- Claim C5: in every successful frame the trace splits into the shadow
pass followed by the main pass, the shadow pass performs every shadow-map
write and no read, the main pass performs every read and no write, and hence
every shadow-map write precedes every shadow-map read in the frame. -/
theorem C5_shadow_pass_before_main_pass (w w2 : WorldState) (tr : List RenderEvent)
    (h : WorldRenderer.RenderFrame w = some (w2, tr)) :
    ∃ tr1 tr2, tr = tr1 ++ tr2 ∧
      (∀ e ∈ tr1, e.readsShadowMap = false) ∧
      (∀ e ∈ tr2, e.writesShadowMap = false) ∧
      ∀ i j (hi : i < tr.length) (hj : j < tr.length),
        (tr.get ⟨i, hi⟩).writesShadowMap = true →
        (tr.get ⟨j, hj⟩).readsShadowMap = true → i < j := by
  unfold WorldRenderer.RenderFrame at h
  cases hsm : WorldRenderer.RenderShadowMap w with
  | none =>
    rw [hsm] at h
    exact Option.noConfusion h
  | some p1 =>
    rw [hsm] at h
    obtain ⟨w1, tr1⟩ := p1
    have h2 : (match WorldRenderer.RenderWorld w1 with
      | none => none
      | some (w2', tr2') => some (w2', tr1 ++ tr2')) = some (w2, tr) := h
    cases hrw : WorldRenderer.RenderWorld w1 with
    | none =>
      rw [hrw] at h2
      exact Option.noConfusion h2
    | some p2 =>
      rw [hrw] at h2
      obtain ⟨w2', tr2⟩ := p2
      injection h2 with h'
      injection h' with ha hb
      subst hb
      have hreads := renderShadowMap_no_reads w w1 tr1 hsm
      have hwrites := renderWorld_no_writes w1 w2' tr2 hrw
      exact ⟨tr1, tr2, rfl, hreads, hwrites,
        fun i j hi hj hw hr =>
          no_read_before_write_of_append tr1 tr2 hreads hwrites i j hi hj hw hr⟩

/-- Witness for C5 on a concrete frame with the dirty flag clear. -/
theorem C5_shadow_pass_before_main_pass_witness :
    ∃ tr1 tr2,
      ([RenderEvent.setDepthBiasUniforms,
        RenderEvent.setShadowMapAsRenderTarget,
        RenderEvent.clearFrameBuffer kShadowMapClearColor,
        RenderEvent.setCulling,
        RenderEvent.depthRenderPass 0,
        RenderEvent.depthRenderPass 1,
        RenderEvent.setScreenRenderTarget,
        RenderEvent.broadcastUniforms "WATER",
        RenderEvent.broadcastUniforms "PHONG_SHADING",
        RenderEvent.broadcastUniforms "FOG_EFFECT",
        RenderEvent.bindShadowMapAsTexture kShadowMapTextureID,
        RenderEvent.mainRenderPass 0,
        RenderEvent.mainRenderPass 1,
        RenderEvent.render3dText] : List RenderEvent) = tr1 ++ tr2 ∧
      (∀ e ∈ tr1, e.readsShadowMap = false) ∧
      (∀ e ∈ tr2, e.writesShadowMap = false) ∧
      ∀ i j (hi : i < ([RenderEvent.setDepthBiasUniforms,
        RenderEvent.setShadowMapAsRenderTarget,
        RenderEvent.clearFrameBuffer kShadowMapClearColor,
        RenderEvent.setCulling,
        RenderEvent.depthRenderPass 0,
        RenderEvent.depthRenderPass 1,
        RenderEvent.setScreenRenderTarget,
        RenderEvent.broadcastUniforms "WATER",
        RenderEvent.broadcastUniforms "PHONG_SHADING",
        RenderEvent.broadcastUniforms "FOG_EFFECT",
        RenderEvent.bindShadowMapAsTexture kShadowMapTextureID,
        RenderEvent.mainRenderPass 0,
        RenderEvent.mainRenderPass 1,
        RenderEvent.render3dText] : List RenderEvent).length)
        (hj : j < ([RenderEvent.setDepthBiasUniforms,
        RenderEvent.setShadowMapAsRenderTarget,
        RenderEvent.clearFrameBuffer kShadowMapClearColor,
        RenderEvent.setCulling,
        RenderEvent.depthRenderPass 0,
        RenderEvent.depthRenderPass 1,
        RenderEvent.setScreenRenderTarget,
        RenderEvent.broadcastUniforms "WATER",
        RenderEvent.broadcastUniforms "PHONG_SHADING",
        RenderEvent.broadcastUniforms "FOG_EFFECT",
        RenderEvent.bindShadowMapAsTexture kShadowMapTextureID,
        RenderEvent.mainRenderPass 0,
        RenderEvent.mainRenderPass 1,
        RenderEvent.render3dText] : List RenderEvent).length),
        (([RenderEvent.setDepthBiasUniforms,
        RenderEvent.setShadowMapAsRenderTarget,
        RenderEvent.clearFrameBuffer kShadowMapClearColor,
        RenderEvent.setCulling,
        RenderEvent.depthRenderPass 0,
        RenderEvent.depthRenderPass 1,
        RenderEvent.setScreenRenderTarget,
        RenderEvent.broadcastUniforms "WATER",
        RenderEvent.broadcastUniforms "PHONG_SHADING",
        RenderEvent.broadcastUniforms "FOG_EFFECT",
        RenderEvent.bindShadowMapAsTexture kShadowMapTextureID,
        RenderEvent.mainRenderPass 0,
        RenderEvent.mainRenderPass 1,
        RenderEvent.render3dText] : List RenderEvent).get ⟨i, hi⟩).writesShadowMap = true →
        (([RenderEvent.setDepthBiasUniforms,
        RenderEvent.setShadowMapAsRenderTarget,
        RenderEvent.clearFrameBuffer kShadowMapClearColor,
        RenderEvent.setCulling,
        RenderEvent.depthRenderPass 0,
        RenderEvent.depthRenderPass 1,
        RenderEvent.setScreenRenderTarget,
        RenderEvent.broadcastUniforms "WATER",
        RenderEvent.broadcastUniforms "PHONG_SHADING",
        RenderEvent.broadcastUniforms "FOG_EFFECT",
        RenderEvent.bindShadowMapAsTexture kShadowMapTextureID,
        RenderEvent.mainRenderPass 0,
        RenderEvent.mainRenderPass 1,
        RenderEvent.render3dText] : List RenderEvent).get ⟨j, hj⟩).readsShadowMap = true →
        i < j :=
  C5_shadow_pass_before_main_pass
    { renderingDirty := false, options := ⟨false, false, false, false⟩,
      assetManager := ⟨[], [], []⟩, skipRendermeshRendering := false,
      drawDebugPhysics := false,
      depthShader := some ⟨"shaders/render_depth", [], []⟩,
      depthSkinnedShader := some ⟨"shaders/render_depth_skinned", [], []⟩,
      texturedShader := some ⟨"shaders/textured", [], []⟩ }
    { renderingDirty := false, options := ⟨false, false, false, false⟩,
      assetManager := ⟨[], [], []⟩, skipRendermeshRendering := false,
      drawDebugPhysics := false,
      depthShader := some ⟨"shaders/render_depth", [], ["bias"]⟩,
      depthSkinnedShader := some ⟨"shaders/render_depth_skinned", [], ["bias"]⟩,
      texturedShader := some ⟨"shaders/textured", [], []⟩ }
    [RenderEvent.setDepthBiasUniforms,
     RenderEvent.setShadowMapAsRenderTarget,
     RenderEvent.clearFrameBuffer kShadowMapClearColor,
     RenderEvent.setCulling,
     RenderEvent.depthRenderPass 0,
     RenderEvent.depthRenderPass 1,
     RenderEvent.setScreenRenderTarget,
     RenderEvent.broadcastUniforms "WATER",
     RenderEvent.broadcastUniforms "PHONG_SHADING",
     RenderEvent.broadcastUniforms "FOG_EFFECT",
     RenderEvent.bindShadowMapAsTexture kShadowMapTextureID,
     RenderEvent.mainRenderPass 0,
     RenderEvent.mainRenderPass 1,
     RenderEvent.render3dText] rfl

/-- Claim C6 counterexample: with the dirty flag set and the depth shader
not loaded, RenderWorld crashes (ReloadIfDirty is called on the null handle
FindShader returned), so an unready shader does abort the frame. -/
theorem C6_missing_shader_aborts_frame :
    WorldRenderer.RenderWorld
      { renderingDirty := true, options := ⟨true, true, true, true⟩,
        assetManager := ⟨[], [], []⟩, skipRendermeshRendering := false,
        drawDebugPhysics := false, depthShader := none,
        depthSkinnedShader := none, texturedShader := none } = none := rfl

/-- Claim C6 amended: the per-define uniform broadcasts enumerate only the
loaded shaders carrying the matching define, so a missing or unready shader
has its uniform group skipped and a loaded shader without the define is
untouched; RenderWorld completes whenever the define refresh is not
triggered (rendering-dirty flag clear), whatever shaders are loaded.  Only
RefreshGlobalShaderDefines, which dereferences the FindShader results for
the three core shaders without a null check, can abort the frame. -/
theorem C6_broadcasts_skip_unready_shaders (w : WorldState)
    (hclean : w.renderingDirty = false) :
    ∃ w1 tr, WorldRenderer.RenderWorld w = some (w1, tr) ∧
      ∀ s ∈ w.assetManager.shaders,
        "SHADOW_EFFECT" ∉ s.defines → "WATER" ∉ s.defines →
        "PHONG_SHADING" ∉ s.defines → "FOG_EFFECT" ∉ s.defines →
        s ∈ w1.assetManager.shaders := by
  refine ⟨_, _, renderWorld_clean w hclean, ?_⟩
  intro s hs h1 h2 h3 h4
  exact broadcast_untagged w s hs h1 h2 h3 h4

/-- Witness for the amended C6: a world missing every core shader still
completes RenderWorld, and a loaded shader with no broadcast define is
untouched. -/
theorem C6_broadcasts_skip_unready_shaders_witness :
    ∃ w1 tr, WorldRenderer.RenderWorld
        { renderingDirty := false, options := ⟨true, true, true, true⟩,
          assetManager := ⟨[⟨"my_shader", [], []⟩], [], []⟩,
          skipRendermeshRendering := false, drawDebugPhysics := false,
          depthShader := none, depthSkinnedShader := none,
          texturedShader := none } = some (w1, tr) ∧
      ∀ s ∈ (AssetManager.mk [⟨"my_shader", [], []⟩] [] []).shaders,
        "SHADOW_EFFECT" ∉ s.defines → "WATER" ∉ s.defines →
        "PHONG_SHADING" ∉ s.defines → "FOG_EFFECT" ∉ s.defines →
        s ∈ w1.assetManager.shaders :=
  C6_broadcasts_skip_unready_shaders
    { renderingDirty := false, options := ⟨true, true, true, true⟩,
      assetManager := ⟨[⟨"my_shader", [], []⟩], [], []⟩,
      skipRendermeshRendering := false, drawDebugPhysics := false,
      depthShader := none, depthSkinnedShader := none,
      texturedShader := none } rfl

/-- Helper: the trace of a successful CreateShadowMap call. -/
theorem createShadowMap_eq (w w1 : WorldState) (tr : List RenderEvent)
    (h : WorldRenderer.CreateShadowMap w = some (w1, tr)) :
    tr = WorldRenderer.createShadowMapTrace := by
  unfold WorldRenderer.CreateShadowMap at h
  cases hds : w.depthShader with
  | none =>
    rw [hds] at h
    exact Option.noConfusion h
  | some ds =>
    cases hdss : w.depthSkinnedShader with
    | none =>
      rw [hds, hdss] at h
      exact Option.noConfusion h
    | some dss =>
      rw [hds, hdss] at h
      injection h with h'
      injection h' with ha hb
      exact hb.symm

/-- Claim C8: every RGB component of the shadow-map clear color is exactly
0.99 — strictly below the maximum 1 and strictly above zero — and in every
successful shadow pass the clear to that color happens before any
depth-geometry render pass. -/
theorem C8_shadow_clear_color (w w1 : WorldState) (tr : List RenderEvent)
    (h : WorldRenderer.CreateShadowMap w = some (w1, tr)) :
    (kShadowMapClearColor.x = 99 / 100 ∧ kShadowMapClearColor.y = 99 / 100 ∧
      kShadowMapClearColor.z = 99 / 100 ∧
      kShadowMapClearColor.x < 1 ∧ 0 < kShadowMapClearColor.x ∧
      kShadowMapClearColor.y < 1 ∧ 0 < kShadowMapClearColor.y ∧
      kShadowMapClearColor.z < 1 ∧ 0 < kShadowMapClearColor.z) ∧
    ∃ tr1 tr2,
      tr = tr1 ++ RenderEvent.clearFrameBuffer kShadowMapClearColor :: tr2 ∧
      ∀ e ∈ tr1, ∀ p : Nat, e ≠ RenderEvent.depthRenderPass p := by
  constructor
  · exact ⟨rfl, rfl, rfl, by norm_num [kShadowMapClearColor],
      by norm_num [kShadowMapClearColor], by norm_num [kShadowMapClearColor],
      by norm_num [kShadowMapClearColor], by norm_num [kShadowMapClearColor],
      by norm_num [kShadowMapClearColor]⟩
  · have htr := createShadowMap_eq w w1 tr h
    subst htr
    refine ⟨[RenderEvent.setShadowMapAsRenderTarget],
      RenderEvent.setCulling ::
        ((List.range RenderPass_Count).map RenderEvent.depthRenderPass
          ++ [RenderEvent.setScreenRenderTarget]), rfl, ?_⟩
    intro e he p
    rw [List.mem_singleton] at he
    subst he
    intro hcon
    exact RenderEvent.noConfusion hcon

/-- Witness for C8 at a concrete world with both depth shaders loaded. -/
theorem C8_shadow_clear_color_witness :
    (kShadowMapClearColor.x = 99 / 100 ∧ kShadowMapClearColor.y = 99 / 100 ∧
      kShadowMapClearColor.z = 99 / 100 ∧
      kShadowMapClearColor.x < 1 ∧ 0 < kShadowMapClearColor.x ∧
      kShadowMapClearColor.y < 1 ∧ 0 < kShadowMapClearColor.y ∧
      kShadowMapClearColor.z < 1 ∧ 0 < kShadowMapClearColor.z) ∧
    ∃ tr1 tr2,
      WorldRenderer.createShadowMapTrace
        = tr1 ++ RenderEvent.clearFrameBuffer kShadowMapClearColor :: tr2 ∧
      ∀ e ∈ tr1, ∀ p : Nat, e ≠ RenderEvent.depthRenderPass p :=
  C8_shadow_clear_color
    { renderingDirty := false, options := ⟨false, false, false, false⟩,
      assetManager := ⟨[], [], []⟩, skipRendermeshRendering := false,
      drawDebugPhysics := false,
      depthShader := some ⟨"shaders/render_depth", [], []⟩,
      depthSkinnedShader := some ⟨"shaders/render_depth_skinned", [], []⟩,
      texturedShader := none }
    { renderingDirty := false, options := ⟨false, false, false, false⟩,
      assetManager := ⟨[], [], []⟩, skipRendermeshRendering := false,
      drawDebugPhysics := false,
      depthShader := some ⟨"shaders/render_depth", [], []⟩,
      depthSkinnedShader := some ⟨"shaders/render_depth_skinned", [], []⟩,
      texturedShader := none }
    WorldRenderer.createShadowMapTrace rfl

end Zooshi
